import Mathlib

/-!
Shallow embedding of the bluecrew-v6 CSV-export endpoints:
the campaign-application export route and the candidate export route.
Both routes share the same helper logic (CSV escaping, expiry parsing,
authorization) and differ only in the row shape, the fixed CSV column
set and a few strings.  JavaScript-specific behaviours (string
truthiness, `Number.parseInt` prefix parsing, overflow of the parsed
value to an infinite double) are modelled explicitly.
-/

set_option maxRecDepth 8192
set_option exponentiation.threshold 1100

namespace BlueCrew

/-- JavaScript String.prototype.trim: strip leading and trailing
whitespace, modelled directly on the character list so that it
evaluates by kernel reduction. -/
def jsTrim (s : String) : String :=
  String.mk (((s.data.dropWhile Char.isWhitespace).reverse.dropWhile
    Char.isWhitespace).reverse)

/-- JavaScript String.prototype.toLowerCase, on the character list. -/
def jsToLower (s : String) : String :=
  String.mk (s.data.map Char.toLower)

/-- JavaScript s.startsWith(pre), on the character lists. -/
def jsStartsWith (s pre : String) : Bool :=
  pre.data.isPrefixOf s.data

/-- 60 * 60 * 24 * 365, the default signed-URL lifetime (one year). -/
def DEFAULT_EXPIRES_IN_SECONDS : Int := 60 * 60 * 24 * 365

/-- 60 * 60 * 24 * 365, the maximum signed-URL lifetime. -/
def MAX_EXPIRES_IN_SECONDS : Int := 60 * 60 * 24 * 365

/-- Default position for the campaign-application route. -/
def DEFAULT_POSITION : String := "elektriker"

/-- Default role for the candidate route. -/
def DEFAULT_ROLE : String := "elektriker"

/-- A JavaScript value reaching csvEscape: null, undefined, or a string
(other scalars are stringified before reaching the interesting logic,
so they are represented by their string image). -/
inductive CsvValue where
  | null
  | undefined
  | str (s : String)
deriving DecidableEq

/-- The character class of the regular expression tested by csvEscape:
a double quote, a newline, a carriage return or a comma. -/
def isCsvSpecial (c : Char) : Bool :=
  c = '"' || c = '\n' || c = '\r' || c = ','

/-- The global regex replacement of a double quote by two double quotes. -/
def doubleQuotesAux : List Char → List Char
  | [] => []
  | c :: cs =>
      if c = '"' then '"' :: '"' :: doubleQuotesAux cs
      else c :: doubleQuotesAux cs

/-- csvEscape from both route files: null/undefined become the empty
string; a string containing a quote, newline, carriage return or comma
is wrapped in double quotes with internal quotes doubled; any other
string is returned unchanged. -/
def csvEscape : CsvValue → String
  | .null => ""
  | .undefined => ""
  | .str s =>
      if s.data.any isCsvSpecial then
        "\"" ++ String.mk (doubleQuotesAux s.data) ++ "\""
      else s

/-- Value of a list of decimal digit characters, most significant first. -/
def digitsToNat (cs : List Char) : Nat :=
  cs.foldl (fun a c => a * 10 + (c.toNat - 48)) 0

/-- Number.parseInt(s, 10): skip leading whitespace, read an optional
sign, then the longest prefix of decimal digits; NaN (none) when that
prefix is empty.  The returned integer is the exact mathematical value
of the digit prefix. -/
def jsParseInt (s : String) : Option Int :=
  let cs := s.data.dropWhile Char.isWhitespace
  match cs with
  | '-' :: rest =>
      let ds := rest.takeWhile Char.isDigit
      if ds.isEmpty then none else some (-(digitsToNat ds : Int))
  | '+' :: rest =>
      let ds := rest.takeWhile Char.isDigit
      if ds.isEmpty then none else some ((digitsToNat ds : Int))
  | _ =>
      let ds := cs.takeWhile Char.isDigit
      if ds.isEmpty then none else some ((digitsToNat ds : Int))

/-- Smallest positive integer that rounds to an infinite IEEE-754
double (the midpoint between the largest finite double and 2^1024;
round-half-even sends the midpoint itself to infinity). -/
def MAX_DOUBLE_EXCLUSIVE : Nat := 2 ^ 1024 - 2 ^ 970

/-- Number.isFinite applied to the double obtained by rounding the
exact integer n: true exactly when the rounded value is finite. -/
def jsFinite (n : Int) : Bool :=
  n.natAbs < MAX_DOUBLE_EXCLUSIVE

/-- JavaScript truthiness of a nullable string: null/undefined and the
empty string are falsy. -/
def truthyStr : Option String → Bool
  | none => false
  | some s => s != ""

/-- JavaScript `v || d` for a nullable string v and a string default d. -/
def jsOrStr (v : Option String) (d : String) : String :=
  match v with
  | some s => if s = "" then d else s
  | none => d

/-- JavaScript `a || b` on two nullable strings. -/
def jsOrOpt (a b : Option String) : Option String :=
  if truthyStr a then a else b

/-- parseExpiresInSeconds from both route files: a truthy
expiresInSeconds parameter that parses to a finite integer > 0 is used
capped at the maximum; otherwise a truthy expiresInDays parameter that
parses to a finite integer > 0 is converted to seconds and capped;
otherwise the default applies. -/
def parseExpiresInSeconds (secondsParam daysParam : Option String) : Int :=
  let fromSeconds : Option Int :=
    if truthyStr secondsParam then
      match jsParseInt (secondsParam.getD "") with
      | some parsed =>
          if jsFinite parsed ∧ 0 < parsed then
            some (min parsed MAX_EXPIRES_IN_SECONDS)
          else none
      | none => none
    else none
  match fromSeconds with
  | some v => v
  | none =>
      let fromDays : Option Int :=
        if truthyStr daysParam then
          match jsParseInt (daysParam.getD "") with
          | some parsed =>
              if jsFinite parsed ∧ 0 < parsed then
                some (min (parsed * 24 * 60 * 60) MAX_EXPIRES_IN_SECONDS)
              else none
          | none => none
        else none
      match fromDays with
      | some v => v
      | none => DEFAULT_EXPIRES_IN_SECONDS

/-- Process-wide configuration read by the routes: NODE_ENV and
CAMPAIGN_EXPORT_SECRET (both possibly unset). -/
structure Env where
  nodeEnv : Option String
  campaignExportSecret : Option String
deriving DecidableEq

/-- isAuthorized from both route files: development mode always
authorizes; otherwise a falsy configured secret forbids everything;
otherwise the supplied secret must be strictly equal to the configured
one. -/
def isAuthorized (env : Env) (secret : Option String) : Bool :=
  if env.nodeEnv = some "development" then true
  else if !truthyStr env.campaignExportSecret then false
  else secret == env.campaignExportSecret

/-- A campaign_applications row as selected by the campaign route:
every column except the identifier is nullable text. -/
structure CampaignApplicationRow where
  id : String
  name : Option String
  email : Option String
  phone : Option String
  position : Option String
  segment : Option String
  status : Option String
  created_at : Option String
  cv_url : Option String
  cv_filename : Option String
deriving DecidableEq

/-- A candidates row as selected by the candidate route. -/
structure CandidateRow where
  id : String
  name : Option String
  email : Option String
  phone : Option String
  primary_role : Option String
  status : Option String
  created_at : Option String
  cv_key : Option String
deriving DecidableEq

/-- Outcome of one createSignedUrl call: an error with a message, or
success carrying a possibly absent signed URL. -/
inductive SignOutcome where
  | ok (signedUrl : Option String)
  | err (message : String)
deriving DecidableEq

/-- The object store's createSignedUrl, as a function of bucket, key
and expiry; each row's call is independent, so a request is modelled
by one such function. -/
def SignFn : Type := String → String → Int → SignOutcome

/-- `row.cv_url?.trim() || ""` (identically `row.cv_key?.trim() || ""`):
the trimmed file reference, empty when the column is null. -/
def rowCvKey : Option String → String
  | some s => if jsTrim s = "" then "" else jsTrim s
  | none => ""

/-- The per-row signed-URL resolution shared by both routes: an empty
key yields empty URL and error; an absolute http(s) key is passed
through; otherwise the store is called and either the signed URL (or
empty when absent) or the error message is recorded.  Returns
(cvDownloadUrl, cvError). -/
def resolveCvFields (sign : SignFn) (bucket : String) (expiresInSeconds : Int)
    (cvKey : String) : String × String :=
  if cvKey = "" then ("", "")
  else if jsStartsWith cvKey "http://" || jsStartsWith cvKey "https://" then (cvKey, "")
  else
    match sign bucket cvKey expiresInSeconds with
    | .err m => ("", m)
    | .ok signed => (jsOrStr signed "", "")

/-- The flattened export row of the campaign route (all plain strings). -/
structure CampaignExportRow where
  application_id : String
  name : String
  email : String
  phone : String
  position : String
  segment : String
  status : String
  created_at : String
  cv_key : String
  cv_filename : String
  cv_download_url : String
  cv_error : String
deriving DecidableEq

/-- The flattened export row of the candidate route. -/
structure CandidateExportRow where
  candidate_id : String
  name : String
  email : String
  phone : String
  role : String
  status : String
  created_at : String
  cv_key : String
  cv_download_url : String
  cv_error : String
deriving DecidableEq

/-- The body of the map over filtered campaign rows: resolve the file
reference and project into an export row, substituting the normalized
position when the row's own field is blank. -/
def resolveCampaignRow (sign : SignFn) (bucket : String) (expiresInSeconds : Int)
    (position : String) (application : CampaignApplicationRow) : CampaignExportRow :=
  let cvKey := rowCvKey application.cv_url
  let r := resolveCvFields sign bucket expiresInSeconds cvKey
  { application_id := application.id
    name := jsOrStr application.name ""
    email := jsOrStr application.email ""
    phone := jsOrStr application.phone ""
    position := jsOrStr application.position position
    segment := jsOrStr application.segment ""
    status := jsOrStr application.status ""
    created_at := jsOrStr application.created_at ""
    cv_key := cvKey
    cv_filename := jsOrStr application.cv_filename ""
    cv_download_url := r.1
    cv_error := r.2 }

/-- The body of the map over filtered candidate rows. -/
def resolveCandidateRow (sign : SignFn) (bucket : String) (expiresInSeconds : Int)
    (role : String) (candidate : CandidateRow) : CandidateExportRow :=
  let cvKey := rowCvKey candidate.cv_key
  let r := resolveCvFields sign bucket expiresInSeconds cvKey
  { candidate_id := candidate.id
    name := jsOrStr candidate.name ""
    email := jsOrStr candidate.email ""
    phone := jsOrStr candidate.phone ""
    role := jsOrStr candidate.primary_role role
    status := jsOrStr candidate.status ""
    created_at := jsOrStr candidate.created_at ""
    cv_key := cvKey
    cv_download_url := r.1
    cv_error := r.2 }

/-- The filter predicate `app.cv_url && app.cv_url.trim() !== ""`. -/
def campaignHasCv (app : CampaignApplicationRow) : Bool :=
  match app.cv_url with
  | some s => s != "" && jsTrim s != ""
  | none => false

/-- The filter predicate `c.cv_key && c.cv_key.trim() !== ""`. -/
def candidateHasCv (c : CandidateRow) : Bool :=
  match c.cv_key with
  | some s => s != "" && jsTrim s != ""
  | none => false

/-- Fixed campaign CSV column list, in order. -/
def campaignHeaders : List String :=
  ["application_id", "name", "email", "phone", "position", "segment",
   "status", "created_at", "cv_key", "cv_filename", "cv_download_url", "cv_error"]

/-- Fixed candidate CSV column list, in order. -/
def candidateHeaders : List String :=
  ["candidate_id", "name", "email", "phone", "role",
   "status", "created_at", "cv_key", "cv_download_url", "cv_error"]

/-- The cells of one campaign export row in header order. -/
def campaignExportCells (r : CampaignExportRow) : List String :=
  [r.application_id, r.name, r.email, r.phone, r.position, r.segment,
   r.status, r.created_at, r.cv_key, r.cv_filename, r.cv_download_url, r.cv_error]

/-- The cells of one candidate export row in header order. -/
def candidateExportCells (r : CandidateExportRow) : List String :=
  [r.candidate_id, r.name, r.email, r.phone, r.role,
   r.status, r.created_at, r.cv_key, r.cv_download_url, r.cv_error]

/-- One data line: each cell escaped and the cells joined by commas. -/
def csvLineOf (cells : List String) : String :=
  String.intercalate "," (cells.map (fun s => csvEscape (CsvValue.str s)))

/-- The csvLines array of the campaign route: the unescaped header
line followed by one escaped line per export row. -/
def campaignCsvLines (rows : List CampaignExportRow) : List String :=
  String.intercalate "," campaignHeaders ::
    rows.map (fun row => csvLineOf (campaignExportCells row))

/-- The csvLines array of the candidate route. -/
def candidateCsvLines (rows : List CandidateExportRow) : List String :=
  String.intercalate "," candidateHeaders ::
    rows.map (fun row => csvLineOf (candidateExportCells row))

/-- The query parameters either route reads (role is only read by the
candidate route). -/
structure Query where
  secret : Option String
  role : Option String
  position : Option String
  includeMissing : Option String
  bucket : Option String
  expiresInSeconds : Option String
  expiresInDays : Option String
deriving DecidableEq

/-- Result of the backing-store query: an error, or data that may be
null (`data || []` recovers the empty list). -/
inductive FetchResult (ρ : Type) where
  | ok (data : Option (List ρ))
  | err (message : String)
deriving DecidableEq

/-- The observable HTTP response of either route: a JSON error body
with a status, or a 200 CSV download with its headers. -/
inductive GetResponse where
  | json (status : Nat) (error : String)
  | csv (status : Nat) (body : String) (contentType : String)
      (contentDisposition : String) (cacheControl : String)
      (totalFetched : Nat) (totalExported : Nat)
deriving DecidableEq

/-- The HTTP status of a response. -/
def GetResponse.statusOf : GetResponse → Nat
  | .json s _ => s
  | .csv s _ _ _ _ _ _ => s

/-- The body of a 200 CSV response (empty for a JSON error response). -/
def GetResponse.bodyOf : GetResponse → String
  | .json _ _ => ""
  | .csv _ b _ _ _ _ _ => b

/-- The X-Total-Applications / X-Total-Candidates header value (0 for
a JSON error response). -/
def GetResponse.totalFetchedOf : GetResponse → Nat
  | .json _ _ => 0
  | .csv _ _ _ _ _ t _ => t

/-- The X-Total-Exported header value (0 for a JSON error response). -/
def GetResponse.totalExportedOf : GetResponse → Nat
  | .json _ _ => 0
  | .csv _ _ _ _ _ _ e => e

/-- `(searchParams.get("position") || DEFAULT_POSITION).trim().toLowerCase()`. -/
def resolveCampaignPosition (q : Query) : String :=
  jsToLower (jsTrim (jsOrStr q.position DEFAULT_POSITION))

/-- `(get("role") || get("position") || DEFAULT_ROLE).trim().toLowerCase()`. -/
def resolveCandidatesRole (q : Query) : String :=
  jsToLower (jsTrim (jsOrStr (jsOrOpt q.role q.position) DEFAULT_ROLE))

/-- `searchParams.get("includeMissing") === "true"`. -/
def includeMissingFlag (q : Query) : Bool :=
  q.includeMissing == some "true"

/-- `(searchParams.get("bucket") || "candidate-cvs").trim()`. -/
def resolveBucket (q : Query) : String :=
  jsTrim (jsOrStr q.bucket "candidate-cvs")

/-- The list of campaign rows surviving the includeMissing filter. -/
def campaignFiltered (q : Query) (applications : List CampaignApplicationRow) :
    List CampaignApplicationRow :=
  if includeMissingFlag q then applications
  else applications.filter campaignHasCv

/-- The list of candidate rows surviving the includeMissing filter. -/
def candidateFiltered (q : Query) (candidates : List CandidateRow) :
    List CandidateRow :=
  if includeMissingFlag q then candidates
  else candidates.filter candidateHasCv

/-- GET of the campaign route, as a function of the configuration, the
query parameters, the store's fetch result, the signed-URL oracle and
the response-time date stamp. -/
def campaignGET (env : Env) (q : Query) (fetch : FetchResult CampaignApplicationRow)
    (sign : SignFn) (dateStamp : String) : GetResponse :=
  if !isAuthorized env q.secret then .json 403 "Forbidden"
  else
    let position := resolveCampaignPosition q
    if position = "" then .json 400 "Missing position"
    else
      match fetch with
      | .err _ => .json 500 "Kunne ikke hente kampanjesoknader"
      | .ok data =>
          let applications := data.getD []
          let filtered := campaignFiltered q applications
          let rows := filtered.map
            (resolveCampaignRow sign (resolveBucket q)
              (parseExpiresInSeconds q.expiresInSeconds q.expiresInDays) position)
          let csvContent := String.intercalate "\n" (campaignCsvLines rows)
          let filename := "campaign-" ++ position ++ "-cvs-" ++ dateStamp ++ ".csv"
          .csv 200 csvContent "text/csv; charset=utf-8"
            ("attachment; filename=\"" ++ filename ++ "\"")
            "no-store, no-cache, must-revalidate"
            applications.length rows.length

/-- GET of the candidate route. -/
def candidatesGET (env : Env) (q : Query) (fetch : FetchResult CandidateRow)
    (sign : SignFn) (dateStamp : String) : GetResponse :=
  if !isAuthorized env q.secret then .json 403 "Forbidden"
  else
    let role := resolveCandidatesRole q
    if role = "" then .json 400 "Missing role"
    else
      match fetch with
      | .err _ => .json 500 "Kunne ikke hente kandidater"
      | .ok data =>
          let candidates := data.getD []
          let filtered := candidateFiltered q candidates
          let rows := filtered.map
            (resolveCandidateRow sign (resolveBucket q)
              (parseExpiresInSeconds q.expiresInSeconds q.expiresInDays) role)
          let csvContent := String.intercalate "\n" (candidateCsvLines rows)
          let filename := "candidates-" ++ role ++ "-cvs-" ++ dateStamp ++ ".csv"
          .csv 200 csvContent "text/csv; charset=utf-8"
            ("attachment; filename=\"" ++ filename ++ "\"")
            "no-store, no-cache, must-revalidate"
            candidates.length rows.length

/-!  Helper lemmas shared by several claims. -/

/-- Two strings with the same character data are equal. -/
theorem string_data_ext (s t : String) (h : s.data = t.data) : s = t := by
  cases s; cases t; exact congrArg String.mk h

/-- The quote-doubling replacement expands every character pointwise. -/
theorem doubleQuotesAux_eq_flatMap (cs : List Char) :
    doubleQuotesAux cs =
      cs.flatMap (fun c => if c = '"' then ['"', '"'] else [c]) := by
  induction cs with
  | nil => rfl
  | cons c cs ih =>
      by_cases h : c = '"' <;>
        simp [doubleQuotesAux, h, ih]

/-- jsToLower produces the empty string only from the empty string. -/
theorem jsToLower_eq_empty (s : String) (h : jsToLower s = "") : s = "" := by
  unfold jsToLower at h
  have hd : (String.mk (s.data.map Char.toLower)).data = ("" : String).data := by
    rw [h]
  simp only [String.mk] at hd
  have : s.data.map Char.toLower = [] := hd
  have hnil : s.data = [] := by
    cases hs : s.data with
    | nil => rfl
    | cons c cs =>
        exfalso
        rw [hs] at this
        simp at this
  exact string_data_ext s "" (by simp [hnil])

/-- A decimal digit is not whitespace. -/
theorem digit_not_whitespace (c : Char) (h : c.isDigit = true) :
    c.isWhitespace = false := by
  cases hcw : c.isWhitespace with
  | false => rfl
  | true =>
      simp only [Char.isWhitespace, Bool.or_eq_true, decide_eq_true_eq] at hcw
      rcases hcw with ((h1 | h1) | h1) | h1 <;>
        (subst h1; exact absurd h (by decide))

/-- takeWhile collects exactly a block of satisfying elements when the
remainder starts with a failing element. -/
theorem takeWhile_block (p : Char → Bool) (xs ys : List Char)
    (hxs : ∀ c ∈ xs, p c = true)
    (hys : Option.all (fun c => !p c) ys.head? = true) :
    (xs ++ ys).takeWhile p = xs := by
  induction xs with
  | nil =>
      cases ys with
      | nil => rfl
      | cons y ys =>
          simp only [Option.all, List.head?] at hys
          have hpy : p y = false := by
            revert hys; cases p y <;> simp
          simp [hpy]
  | cons x xs ih =>
      have hx := hxs x (by simp)
      simp only [List.cons_append, List.takeWhile_cons_of_pos hx]
      rw [ih (fun c hc => hxs c (by simp [hc]))]

/-- C5: the CSV encoder returns the empty string for null and
undefined; a string containing a double quote, comma, carriage return
or newline is returned wrapped in double quotes with every internal
double quote doubled; a string containing none of those characters is
returned unchanged. -/
theorem csv_escape_contract (s : String) :
    csvEscape CsvValue.null = "" ∧
    csvEscape CsvValue.undefined = "" ∧
    (s.data.any isCsvSpecial = true →
      (csvEscape (CsvValue.str s)).data =
        '"' :: (s.data.flatMap (fun c => if c = '"' then ['"', '"'] else [c])
          ++ ['"'])) ∧
    (s.data.any isCsvSpecial = false → csvEscape (CsvValue.str s) = s) := by
  refine ⟨rfl, rfl, ?_, ?_⟩
  · intro h
    simp only [csvEscape, h, if_true]
    rw [show ("\"" : String) ++ String.mk (doubleQuotesAux s.data) ++ "\"" =
      String.mk ('"' :: (doubleQuotesAux s.data ++ ['"'])) from rfl]
    simp [doubleQuotesAux_eq_flatMap]
  · intro h
    simp [csvEscape, h]

/-- Witness for C5 at the spec's own examples. -/
theorem csv_escape_contract_witness :
    csvEscape (CsvValue.str "Say \"hi\"") = "\"Say \"\"hi\"\"\"" ∧
    csvEscape (CsvValue.str "plain") = "plain" ∧
    csvEscape CsvValue.null = "" := by
  refine ⟨?_, ?_, (csv_escape_contract "").1⟩
  · exact string_data_ext _ _
      (((csv_escape_contract "Say \"hi\"").2.2.1 (by decide)).trans (by decide))
  · exact (csv_escape_contract "plain").2.2.2 (by decide)

/-- C6: in development mode the authorization check authorizes every
supplied secret; outside development mode with no configured secret it
always refuses; outside development mode with a configured (non-empty)
secret it authorizes exactly a case-sensitively equal supplied secret. -/
theorem authorization_contract (env : Env) (secret : Option String) :
    (env.nodeEnv = some "development" → isAuthorized env secret = true) ∧
    (env.nodeEnv ≠ some "development" →
      (env.campaignExportSecret = none ∨ env.campaignExportSecret = some "") →
      isAuthorized env secret = false) ∧
    (env.nodeEnv ≠ some "development" →
      ∀ s, env.campaignExportSecret = some s → s ≠ "" →
        (isAuthorized env secret = true ↔ secret = some s)) := by
  refine ⟨?_, ?_, ?_⟩
  · intro hdev
    simp [isAuthorized, hdev]
  · intro hdev hcfg
    rcases hcfg with hc | hc <;> simp [isAuthorized, hdev, truthyStr, hc]
  · intro hdev s hc hs
    simp [isAuthorized, hdev, truthyStr, hc, hs]

/-- Witness for C6 at the spec's own examples. -/
theorem authorization_contract_witness :
    isAuthorized ⟨some "development", none⟩ none = true ∧
    isAuthorized ⟨none, none⟩ (some "anything") = false ∧
    isAuthorized ⟨none, some "abc"⟩ (some "abc") = true ∧
    ¬ isAuthorized ⟨none, some "abc"⟩ (some "ab") = true := by
  refine ⟨(authorization_contract ⟨some "development", none⟩ none).1 rfl,
    (authorization_contract ⟨none, none⟩ (some "anything")).2.1
      (by decide) (Or.inl rfl),
    ((authorization_contract ⟨none, some "abc"⟩ (some "abc")).2.2
      (by decide) "abc" rfl (by decide)).mpr rfl,
    fun hcontra => ?_⟩
  have := ((authorization_contract ⟨none, some "abc"⟩ (some "ab")).2.2
    (by decide) "abc" rfl (by decide)).mp hcontra
  exact absurd this (by decide)

/-- The value a single expiry parameter contributes: some n exactly
when the parameter is present and truthy and parses to a finite
integer n > 0. -/
def acceptsPositiveInt (p : Option String) : Option Int :=
  match p with
  | none => none
  | some s =>
      if s = "" then none
      else
        match jsParseInt s with
        | none => none
        | some n => if jsFinite n ∧ 0 < n then some n else none

/-- Either branch of parseExpiresInSeconds equals the capped accepted
value of its parameter. -/
theorem accepts_branch (p : Option String) (cap : Int → Int) :
    (if truthyStr p then
        match jsParseInt (p.getD "") with
        | some parsed =>
            if jsFinite parsed ∧ 0 < parsed then some (cap parsed) else none
        | none => none
      else none) = (acceptsPositiveInt p).map cap := by
  cases p with
  | none => rfl
  | some s =>
      by_cases h : s = ""
      · subst h; rfl
      · have ht : truthyStr (some s) = true := by simp [truthyStr, h]
        simp only [ht, if_true, acceptsPositiveInt, if_neg h, Option.getD]
        cases jsParseInt s with
        | none => rfl
        | some n =>
            by_cases hn : jsFinite n ∧ 0 < n
            · simp [hn]
            · simp [hn]

/-- parseExpiresInSeconds in terms of the accepted values of its two
parameters. -/
theorem parseExpires_eq_accepts (sp dp : Option String) :
    parseExpiresInSeconds sp dp =
      match acceptsPositiveInt sp with
      | some n => min n MAX_EXPIRES_IN_SECONDS
      | none =>
          match acceptsPositiveInt dp with
          | some m => min (m * 24 * 60 * 60) MAX_EXPIRES_IN_SECONDS
          | none => DEFAULT_EXPIRES_IN_SECONDS := by
  simp only [parseExpiresInSeconds]
  rw [accepts_branch sp (fun n => min n MAX_EXPIRES_IN_SECONDS),
      accepts_branch dp (fun m => min (m * 24 * 60 * 60) MAX_EXPIRES_IN_SECONDS)]
  cases acceptsPositiveInt sp with
  | some n => rfl
  | none =>
      cases acceptsPositiveInt dp with
      | some m => rfl
      | none => rfl

/-- An accepted expiry value is positive. -/
theorem accepts_pos (p : Option String) (n : Int)
    (h : acceptsPositiveInt p = some n) : 0 < n := by
  cases p with
  | none => exact absurd h (by simp [acceptsPositiveInt])
  | some s =>
      simp only [acceptsPositiveInt] at h
      by_cases he : s = ""
      · rw [if_pos he] at h; exact absurd h (by simp)
      · rw [if_neg he] at h
        cases hp : jsParseInt s with
        | none => rw [hp] at h; exact absurd h (by simp)
        | some m =>
            rw [hp] at h
            by_cases hm : jsFinite m = true ∧ 0 < m
            · simp only [hm.1, hm.2, and_self, if_true, Option.some.injEq] at h
              exact h ▸ hm.2
            · simp [hm] at h

/-- C2: the resolved expiry is the accepted expiresInSeconds value
capped at 31536000 when that parameter parses to a finite integer > 0;
otherwise the accepted expiresInDays value times 86400, capped the
same way; otherwise the default 31536000; an invalid expiresInSeconds
falls through to the days rule, and the output is always a positive
integer at most 31536000. -/
theorem expiry_resolution (sp dp : Option String) :
    (∀ n, acceptsPositiveInt sp = some n →
      parseExpiresInSeconds sp dp = min n MAX_EXPIRES_IN_SECONDS) ∧
    (acceptsPositiveInt sp = none → ∀ m, acceptsPositiveInt dp = some m →
      parseExpiresInSeconds sp dp = min (m * 86400) MAX_EXPIRES_IN_SECONDS) ∧
    (acceptsPositiveInt sp = none → acceptsPositiveInt dp = none →
      parseExpiresInSeconds sp dp = 31536000) ∧
    0 < parseExpiresInSeconds sp dp ∧
    parseExpiresInSeconds sp dp ≤ 31536000 := by
  have hMAX : MAX_EXPIRES_IN_SECONDS = 31536000 := by decide
  refine ⟨?_, ?_, ?_, ?_, ?_⟩
  · intro n hn
    rw [parseExpires_eq_accepts, hn]
  · intro hs m hm
    rw [parseExpires_eq_accepts, hs, hm]
    have : m * 86400 = m * 24 * 60 * 60 := by ring
    rw [this]
  · intro hs hd
    rw [parseExpires_eq_accepts, hs, hd]
    decide
  · rw [parseExpires_eq_accepts]
    cases hs : acceptsPositiveInt sp with
    | some n =>
        exact lt_min (accepts_pos sp n hs) (by rw [hMAX]; norm_num)
    | none =>
        cases hd : acceptsPositiveInt dp with
        | some m =>
            refine lt_min ?_ (by rw [hMAX]; norm_num)
            have := accepts_pos dp m hd
            positivity
        | none => decide
  · rw [parseExpires_eq_accepts]
    cases hs : acceptsPositiveInt sp with
    | some n => rw [← hMAX]; exact min_le_right _ _
    | none =>
        cases hd : acceptsPositiveInt dp with
        | some m => rw [← hMAX]; exact min_le_right _ _
        | none => decide

/-- Witness for C2 at the spec's own examples. -/
theorem expiry_resolution_witness :
    parseExpiresInSeconds (some "100") none = 100 ∧
    parseExpiresInSeconds (some "999999999999") none = 31536000 ∧
    parseExpiresInSeconds none (some "2") = 172800 ∧
    parseExpiresInSeconds none none = 31536000 ∧
    parseExpiresInSeconds (some "-5") (some "3") = 259200 := by
  refine ⟨((expiry_resolution (some "100") none).1 100 (by decide)).trans
      (by decide),
    ((expiry_resolution (some "999999999999") none).1 999999999999
      (by decide)).trans (by decide),
    ((expiry_resolution none (some "2")).2.1 rfl 2 (by decide)).trans
      (by decide),
    (expiry_resolution none none).2.2.1 rfl rfl,
    ((expiry_resolution (some "-5") (some "3")).2.1 (by decide) 3
      (by decide)).trans (by decide)⟩

/-- C7: with the includeMissing flag false (the flag is true exactly
when the query parameter is the exact string "true") the filtered list
never contains a row whose file reference is null, empty or
whitespace-only; with the flag true the filtered list keeps every
fetched row, on both routes. -/
theorem include_missing_filter (q : Query) (apps : List CampaignApplicationRow)
    (cands : List CandidateRow) :
    (includeMissingFlag q = true ↔ q.includeMissing = some "true") ∧
    (includeMissingFlag q = false →
      (∀ row ∈ campaignFiltered q apps, ∃ s, row.cv_url = some s ∧ jsTrim s ≠ "") ∧
      (∀ c ∈ candidateFiltered q cands, ∃ s, c.cv_key = some s ∧ jsTrim s ≠ "")) ∧
    (includeMissingFlag q = true →
      campaignFiltered q apps = apps ∧ candidateFiltered q cands = cands) := by
  refine ⟨by simp [includeMissingFlag], ?_, ?_⟩
  · intro hf
    constructor
    · intro row hrow
      rw [campaignFiltered, hf] at hrow
      simp only [Bool.false_eq_true, if_false] at hrow
      rw [List.mem_filter] at hrow
      obtain ⟨-, hhas⟩ := hrow
      cases hcv : row.cv_url with
      | none => simp [campaignHasCv, hcv] at hhas
      | some s =>
          rw [campaignHasCv, hcv] at hhas
          simp only [Bool.and_eq_true, bne_iff_ne, ne_eq] at hhas
          exact ⟨s, rfl, hhas.2⟩
    · intro c hc
      rw [candidateFiltered, hf] at hc
      simp only [Bool.false_eq_true, if_false] at hc
      rw [List.mem_filter] at hc
      obtain ⟨-, hhas⟩ := hc
      cases hcv : c.cv_key with
      | none => simp [candidateHasCv, hcv] at hhas
      | some s =>
          rw [candidateHasCv, hcv] at hhas
          simp only [Bool.and_eq_true, bne_iff_ne, ne_eq] at hhas
          exact ⟨s, rfl, hhas.2⟩
  · intro hf
    rw [campaignFiltered, candidateFiltered, hf]
    exact ⟨if_pos rfl, if_pos rfl⟩

/-- Witness for C7: a retained row has a non-blank reference when the
flag is off, and the flag keeps a blank-reference row when on. -/
theorem include_missing_filter_witness :
    (∃ s, (⟨"1", none, none, none, none, none, none, none, some "abc.pdf", none⟩ :
      CampaignApplicationRow).cv_url = some s ∧ jsTrim s ≠ "") ∧
    campaignFiltered ⟨none, none, none, some "true", none, none, none⟩
      [⟨"2", none, none, none, none, none, none, none, some "", none⟩] =
      [⟨"2", none, none, none, none, none, none, none, some "", none⟩] := by
  constructor
  · exact ((include_missing_filter ⟨none, none, none, none, none, none, none⟩
      [⟨"1", none, none, none, none, none, none, none, some "abc.pdf", none⟩] []).2.1
        (by decide)).1
      ⟨"1", none, none, none, none, none, none, none, some "abc.pdf", none⟩ (by decide)
  · exact ((include_missing_filter ⟨none, none, none, some "true", none, none, none⟩
      [⟨"2", none, none, none, none, none, none, none, some "", none⟩] []).2.2
        (by decide)).1

/-!  Branch lemmas for the two GET pipelines. -/

/-- An unauthorized campaign request is answered 403 Forbidden. -/
theorem campaignGET_unauth (env : Env) (q : Query)
    (fetch : FetchResult CampaignApplicationRow) (sign : SignFn) (dateStamp : String)
    (ha : isAuthorized env q.secret = false) :
    campaignGET env q fetch sign dateStamp = .json 403 "Forbidden" := by
  simp [campaignGET, ha]

/-- An authorized campaign request with empty normalized position is
answered 400, independently of the fetch result. -/
theorem campaignGET_400 (env : Env) (q : Query)
    (fetch : FetchResult CampaignApplicationRow) (sign : SignFn) (dateStamp : String)
    (ha : isAuthorized env q.secret = true) (hpos : resolveCampaignPosition q = "") :
    campaignGET env q fetch sign dateStamp = .json 400 "Missing position" := by
  simp [campaignGET, ha, hpos]

/-- A failed campaign fetch is answered 500. -/
theorem campaignGET_err (env : Env) (q : Query) (m : String) (sign : SignFn)
    (dateStamp : String) (ha : isAuthorized env q.secret = true)
    (hpos : resolveCampaignPosition q ≠ "") :
    campaignGET env q (.err m) sign dateStamp =
      .json 500 "Kunne ikke hente kampanjesoknader" := by
  simp [campaignGET, ha, hpos]

/-- A successful authorized campaign request is a 200 CSV response
whose parts are the fetched rows, the filtered rows and their CSV
serialization. -/
theorem campaignGET_ok (env : Env) (q : Query)
    (data : Option (List CampaignApplicationRow)) (sign : SignFn) (dateStamp : String)
    (ha : isAuthorized env q.secret = true) (hpos : resolveCampaignPosition q ≠ "") :
    campaignGET env q (.ok data) sign dateStamp =
      .csv 200
        (String.intercalate "\n" (campaignCsvLines
          ((campaignFiltered q (data.getD [])).map
            (resolveCampaignRow sign (resolveBucket q)
              (parseExpiresInSeconds q.expiresInSeconds q.expiresInDays)
              (resolveCampaignPosition q)))))
        "text/csv; charset=utf-8"
        ("attachment; filename=\"" ++ ("campaign-" ++ resolveCampaignPosition q ++
          "-cvs-" ++ dateStamp ++ ".csv") ++ "\"")
        "no-store, no-cache, must-revalidate"
        (data.getD []).length
        ((campaignFiltered q (data.getD [])).map
          (resolveCampaignRow sign (resolveBucket q)
            (parseExpiresInSeconds q.expiresInSeconds q.expiresInDays)
            (resolveCampaignPosition q))).length := by
  simp [campaignGET, ha, hpos]

/-- An unauthorized candidate request is answered 403 Forbidden. -/
theorem candidatesGET_unauth (env : Env) (q : Query)
    (fetch : FetchResult CandidateRow) (sign : SignFn) (dateStamp : String)
    (ha : isAuthorized env q.secret = false) :
    candidatesGET env q fetch sign dateStamp = .json 403 "Forbidden" := by
  simp [candidatesGET, ha]

/-- An authorized candidate request with empty normalized role is
answered 400, independently of the fetch result. -/
theorem candidatesGET_400 (env : Env) (q : Query)
    (fetch : FetchResult CandidateRow) (sign : SignFn) (dateStamp : String)
    (ha : isAuthorized env q.secret = true) (hrole : resolveCandidatesRole q = "") :
    candidatesGET env q fetch sign dateStamp = .json 400 "Missing role" := by
  simp [candidatesGET, ha, hrole]

/-- A failed candidate fetch is answered 500. -/
theorem candidatesGET_err (env : Env) (q : Query) (m : String) (sign : SignFn)
    (dateStamp : String) (ha : isAuthorized env q.secret = true)
    (hrole : resolveCandidatesRole q ≠ "") :
    candidatesGET env q (.err m) sign dateStamp =
      .json 500 "Kunne ikke hente kandidater" := by
  simp [candidatesGET, ha, hrole]

/-- A successful authorized candidate request is a 200 CSV response
whose parts are the fetched rows, the filtered rows and their CSV
serialization. -/
theorem candidatesGET_ok (env : Env) (q : Query)
    (data : Option (List CandidateRow)) (sign : SignFn) (dateStamp : String)
    (ha : isAuthorized env q.secret = true) (hrole : resolveCandidatesRole q ≠ "") :
    candidatesGET env q (.ok data) sign dateStamp =
      .csv 200
        (String.intercalate "\n" (candidateCsvLines
          ((candidateFiltered q (data.getD [])).map
            (resolveCandidateRow sign (resolveBucket q)
              (parseExpiresInSeconds q.expiresInSeconds q.expiresInDays)
              (resolveCandidatesRole q)))))
        "text/csv; charset=utf-8"
        ("attachment; filename=\"" ++ ("candidates-" ++ resolveCandidatesRole q ++
          "-cvs-" ++ dateStamp ++ ".csv") ++ "\"")
        "no-store, no-cache, must-revalidate"
        (data.getD []).length
        ((candidateFiltered q (data.getD [])).map
          (resolveCandidateRow sign (resolveBucket q)
            (parseExpiresInSeconds q.expiresInSeconds q.expiresInDays)
            (resolveCandidatesRole q))).length := by
  simp [candidatesGET, ha, hrole]

/-- An empty normalized campaign position forces a present, non-empty,
whitespace-only position parameter. -/
theorem position_empty_analysis (q : Query) (h : resolveCampaignPosition q = "") :
    ∃ p, q.position = some p ∧ p ≠ "" ∧ jsTrim p = "" := by
  unfold resolveCampaignPosition at h
  have htrim := jsToLower_eq_empty _ h
  cases hq : q.position with
  | none =>
      rw [hq] at htrim
      exact absurd htrim (by decide)
  | some p =>
      by_cases hp : p = ""
      · subst hp
        rw [hq] at htrim
        exact absurd htrim (by decide)
      · refine ⟨p, rfl, hp, ?_⟩
        rw [hq] at htrim
        simp only [jsOrStr, if_neg hp] at htrim
        exact htrim

/-- An empty normalized candidate role forces either a present,
non-empty, whitespace-only role parameter, or a falsy role parameter
together with a present, non-empty, whitespace-only position
parameter. -/
theorem role_empty_analysis (q : Query) (h : resolveCandidatesRole q = "") :
    (∃ r, q.role = some r ∧ r ≠ "" ∧ jsTrim r = "") ∨
    (truthyStr q.role = false ∧
      ∃ p, q.position = some p ∧ p ≠ "" ∧ jsTrim p = "") := by
  unfold resolveCandidatesRole at h
  have htrim := jsToLower_eq_empty _ h
  cases htr : truthyStr q.role with
  | true =>
      left
      cases hq : q.role with
      | none => rw [hq] at htr; exact absurd htr (by decide)
      | some r =>
          have hr : r ≠ "" := by
            rw [hq] at htr; simpa [truthyStr] using htr
          refine ⟨r, rfl, hr, ?_⟩
          rw [jsOrOpt, htr] at htrim
          simp only [if_true] at htrim
          rw [hq] at htrim
          simp only [jsOrStr, if_neg hr] at htrim
          exact htrim
  | false =>
      right
      refine ⟨rfl, ?_⟩
      rw [jsOrOpt, htr] at htrim
      simp only [Bool.false_eq_true, if_false] at htrim
      cases hq : q.position with
      | none =>
          rw [hq] at htrim
          exact absurd htrim (by decide)
      | some p =>
          by_cases hp : p = ""
          · subst hp
            rw [hq] at htrim
            exact absurd htrim (by decide)
          · refine ⟨p, rfl, hp, ?_⟩
            rw [hq] at htrim
            simp only [jsOrStr, if_neg hp] at htrim
            exact htrim

/-- C10: a role/position query parameter present but equal to the
empty string behaves exactly like an absent parameter: the default
"elektriker" is applied and no 400 results; the 400 missing-role or
missing-position response is reachable only when a supplied parameter
value is non-empty but consists entirely of whitespace. -/
theorem empty_param_like_absent (q : Query) (env : Env) (sign : SignFn)
    (dateStamp : String) :
    (resolveCandidatesRole { q with role := some "" } =
      resolveCandidatesRole { q with role := none }) ∧
    (resolveCandidatesRole { q with position := some "" } =
      resolveCandidatesRole { q with position := none }) ∧
    (resolveCampaignPosition { q with position := some "" } =
      resolveCampaignPosition { q with position := none }) ∧
    (truthyStr q.role = false → truthyStr q.position = false →
      resolveCandidatesRole q = "elektriker" ∧
      resolveCampaignPosition q = "elektriker" ∧
      (∀ fetch : FetchResult CandidateRow,
        (candidatesGET env q fetch sign dateStamp).statusOf ≠ 400) ∧
      (∀ fetch : FetchResult CampaignApplicationRow,
        (campaignGET env q fetch sign dateStamp).statusOf ≠ 400)) ∧
    (∀ fetch : FetchResult CandidateRow,
      (candidatesGET env q fetch sign dateStamp).statusOf = 400 →
      (∃ r, q.role = some r ∧ r ≠ "" ∧ jsTrim r = "") ∨
      (truthyStr q.role = false ∧
        ∃ p, q.position = some p ∧ p ≠ "" ∧ jsTrim p = "")) ∧
    (∀ fetch : FetchResult CampaignApplicationRow,
      (campaignGET env q fetch sign dateStamp).statusOf = 400 →
      ∃ p, q.position = some p ∧ p ≠ "" ∧ jsTrim p = "") := by
  obtain ⟨sec, r, pos, im, bu, es, ed⟩ := q
  refine ⟨?_, ?_, ?_, ?_, ?_, ?_⟩
  · simp [resolveCandidatesRole, jsOrOpt, truthyStr]
  · cases htr : truthyStr r with
    | true => simp [resolveCandidatesRole, jsOrOpt, htr]
    | false => simp [resolveCandidatesRole, jsOrOpt, htr, jsOrStr]
  · simp [resolveCampaignPosition, jsOrStr]
  · intro hr hp
    have hrole : resolveCandidatesRole ⟨sec, r, pos, im, bu, es, ed⟩ = "elektriker" := by
      unfold resolveCandidatesRole jsOrOpt
      rw [show (⟨sec, r, pos, im, bu, es, ed⟩ : Query).role = r from rfl,
          show (⟨sec, r, pos, im, bu, es, ed⟩ : Query).position = pos from rfl, hr]
      simp only [Bool.false_eq_true, if_false]
      cases hq : pos with
      | none => decide
      | some p =>
          have hpe : p = "" := by
            rw [hq] at hp
            simpa [truthyStr] using hp
          subst hpe
          decide
    have hposn : resolveCampaignPosition ⟨sec, r, pos, im, bu, es, ed⟩ = "elektriker" := by
      unfold resolveCampaignPosition
      rw [show (⟨sec, r, pos, im, bu, es, ed⟩ : Query).position = pos from rfl]
      cases hq : pos with
      | none => decide
      | some p =>
          have hpe : p = "" := by
            rw [hq] at hp
            simpa [truthyStr] using hp
          subst hpe
          decide
    have hrne : resolveCandidatesRole ⟨sec, r, pos, im, bu, es, ed⟩ ≠ "" := by
      rw [hrole]; decide
    have hpne : resolveCampaignPosition ⟨sec, r, pos, im, bu, es, ed⟩ ≠ "" := by
      rw [hposn]; decide
    refine ⟨hrole, hposn, ?_, ?_⟩
    · intro fetch h400
      cases ha : isAuthorized env sec with
      | false =>
          rw [candidatesGET_unauth _ _ _ _ _ ha] at h400
          simp [GetResponse.statusOf] at h400
      | true =>
          cases fetch with
          | err m =>
              rw [candidatesGET_err _ _ _ _ _ ha hrne] at h400
              simp [GetResponse.statusOf] at h400
          | ok data =>
              rw [candidatesGET_ok _ _ _ _ _ ha hrne] at h400
              simp [GetResponse.statusOf] at h400
    · intro fetch h400
      cases ha : isAuthorized env sec with
      | false =>
          rw [campaignGET_unauth _ _ _ _ _ ha] at h400
          simp [GetResponse.statusOf] at h400
      | true =>
          cases fetch with
          | err m =>
              rw [campaignGET_err _ _ _ _ _ ha hpne] at h400
              simp [GetResponse.statusOf] at h400
          | ok data =>
              rw [campaignGET_ok _ _ _ _ _ ha hpne] at h400
              simp [GetResponse.statusOf] at h400
  · intro fetch h400
    cases ha : isAuthorized env sec with
    | false =>
        rw [candidatesGET_unauth _ _ _ _ _ ha] at h400
        simp [GetResponse.statusOf] at h400
    | true =>
        by_cases hrole : resolveCandidatesRole ⟨sec, r, pos, im, bu, es, ed⟩ = ""
        · exact role_empty_analysis _ hrole
        · exfalso
          cases fetch with
          | err m =>
              rw [candidatesGET_err _ _ _ _ _ ha hrole] at h400
              simp [GetResponse.statusOf] at h400
          | ok data =>
              rw [candidatesGET_ok _ _ _ _ _ ha hrole] at h400
              simp [GetResponse.statusOf] at h400
  · intro fetch h400
    cases ha : isAuthorized env sec with
    | false =>
        rw [campaignGET_unauth _ _ _ _ _ ha] at h400
        simp [GetResponse.statusOf] at h400
    | true =>
        by_cases hpos : resolveCampaignPosition ⟨sec, r, pos, im, bu, es, ed⟩ = ""
        · exact position_empty_analysis _ hpos
        · exfalso
          cases fetch with
          | err m =>
              rw [campaignGET_err _ _ _ _ _ ha hpos] at h400
              simp [GetResponse.statusOf] at h400
          | ok data =>
              rw [campaignGET_ok _ _ _ _ _ ha hpos] at h400
              simp [GetResponse.statusOf] at h400

/-- Witness for C10 at concrete empty-string parameters. -/
theorem empty_param_like_absent_witness :
    resolveCandidatesRole ⟨none, some "", some "x", none, none, none, none⟩ =
      resolveCandidatesRole ⟨none, none, some "x", none, none, none, none⟩ ∧
    resolveCandidatesRole ⟨none, some "", some "", none, none, none, none⟩ =
      "elektriker" ∧
    (candidatesGET ⟨some "development", none⟩
      ⟨none, some "", some "", none, none, none, none⟩
      (.ok none) (fun _ _ _ => .ok none) "2026-01-01").statusOf ≠ 400 := by
  refine ⟨?_, ?_, ?_⟩
  · exact (empty_param_like_absent ⟨none, none, some "x", none, none, none, none⟩
      ⟨none, none⟩ (fun _ _ _ => .ok none) "d").1
  · exact ((empty_param_like_absent ⟨none, some "", some "", none, none, none, none⟩
      ⟨none, none⟩ (fun _ _ _ => .ok none) "d").2.2.2.1 (by decide) (by decide)).1
  · exact ((empty_param_like_absent ⟨none, some "", some "", none, none, none, none⟩
      ⟨some "development", none⟩ (fun _ _ _ => .ok none) "2026-01-01").2.2.2.1
        (by decide) (by decide)).2.2.1 (.ok none)

/-- C8: the role/position used for filtering is the supplied parameter
trimmed and lower-cased, with the default "elektriker" applied when the
parameter is absent; an empty normalized value yields a 400 naming the
missing parameter, with a response independent of any fetch result;
the candidate route accepts role or position as synonyms, preferring a
supplied non-empty role. -/
theorem role_normalization (q : Query) (env : Env) (sign : SignFn)
    (dateStamp : String) (fetchC : FetchResult CandidateRow)
    (fetchA : FetchResult CampaignApplicationRow) :
    (∀ r, q.role = some r → r ≠ "" →
      resolveCandidatesRole q = jsToLower (jsTrim r)) ∧
    (truthyStr q.role = false → ∀ p, q.position = some p → p ≠ "" →
      resolveCandidatesRole q = jsToLower (jsTrim p) ∧
      resolveCampaignPosition q = jsToLower (jsTrim p)) ∧
    (truthyStr q.role = false → truthyStr q.position = false →
      resolveCandidatesRole q = "elektriker" ∧
      resolveCampaignPosition q = "elektriker") ∧
    (resolveCandidatesRole q = "" →
      (∀ f1 f2 : FetchResult CandidateRow,
        candidatesGET env q f1 sign dateStamp =
          candidatesGET env q f2 sign dateStamp) ∧
      (isAuthorized env q.secret = true →
        candidatesGET env q fetchC sign dateStamp = .json 400 "Missing role")) ∧
    (resolveCampaignPosition q = "" →
      (∀ f1 f2 : FetchResult CampaignApplicationRow,
        campaignGET env q f1 sign dateStamp =
          campaignGET env q f2 sign dateStamp) ∧
      (isAuthorized env q.secret = true →
        campaignGET env q fetchA sign dateStamp = .json 400 "Missing position")) := by
  obtain ⟨sec, r, pos, im, bu, es, ed⟩ := q
  refine ⟨?_, ?_, ?_, ?_, ?_⟩
  · intro r0 hq hr0
    rw [show (⟨sec, r, pos, im, bu, es, ed⟩ : Query).role = r from rfl] at hq
    subst hq
    unfold resolveCandidatesRole jsOrOpt
    have ht : truthyStr (some r0) = true := by simp [truthyStr, hr0]
    rw [show (⟨sec, some r0, pos, im, bu, es, ed⟩ : Query).role = some r0 from rfl, ht]
    simp only [if_true]
    rw [show jsOrStr (some r0) DEFAULT_ROLE = r0 from by simp [jsOrStr, hr0]]
  · intro hr p0 hq hp0
    rw [show (⟨sec, r, pos, im, bu, es, ed⟩ : Query).position = pos from rfl] at hq
    subst hq
    constructor
    · unfold resolveCandidatesRole jsOrOpt
      rw [show (⟨sec, r, some p0, im, bu, es, ed⟩ : Query).role = r from rfl, hr]
      simp only [Bool.false_eq_true, if_false]
      rw [show jsOrStr (some p0) DEFAULT_ROLE = p0 from by simp [jsOrStr, hp0]]
    · unfold resolveCampaignPosition
      rw [show jsOrStr (⟨sec, r, some p0, im, bu, es, ed⟩ : Query).position
        DEFAULT_POSITION = p0 from by simp [jsOrStr, hp0]]
  · intro hr hp
    constructor
    · unfold resolveCandidatesRole jsOrOpt
      rw [show (⟨sec, r, pos, im, bu, es, ed⟩ : Query).role = r from rfl, hr]
      simp only [Bool.false_eq_true, if_false]
      cases hq : pos with
      | none => decide
      | some p =>
          have hpe : p = "" := by
            rw [show (⟨sec, r, pos, im, bu, es, ed⟩ : Query).position = pos from rfl,
              hq] at hp
            simpa [truthyStr] using hp
          subst hpe
          decide
    · unfold resolveCampaignPosition
      rw [show (⟨sec, r, pos, im, bu, es, ed⟩ : Query).position = pos from rfl]
      cases hq : pos with
      | none => decide
      | some p =>
          have hpe : p = "" := by
            rw [hq] at hp
            simpa [truthyStr] using hp
          subst hpe
          decide
  · intro hrole
    constructor
    · intro f1 f2
      cases ha : isAuthorized env sec with
      | false =>
          rw [candidatesGET_unauth _ _ _ _ _ ha, candidatesGET_unauth _ _ _ _ _ ha]
      | true =>
          rw [candidatesGET_400 _ _ _ _ _ ha hrole, candidatesGET_400 _ _ _ _ _ ha hrole]
    · intro ha
      exact candidatesGET_400 _ _ _ _ _ ha hrole
  · intro hpos
    constructor
    · intro f1 f2
      cases ha : isAuthorized env sec with
      | false =>
          rw [campaignGET_unauth _ _ _ _ _ ha, campaignGET_unauth _ _ _ _ _ ha]
      | true =>
          rw [campaignGET_400 _ _ _ _ _ ha hpos, campaignGET_400 _ _ _ _ _ ha hpos]
    · intro ha
      exact campaignGET_400 _ _ _ _ _ ha hpos

/-- Witness for C8 at concrete parameters. -/
theorem role_normalization_witness :
    resolveCandidatesRole
      ⟨none, some " Elektriker ", some "x", none, none, none, none⟩ = "elektriker" ∧
    resolveCampaignPosition ⟨none, none, some " KOKK ", none, none, none, none⟩ =
      "kokk" ∧
    candidatesGET ⟨some "development", none⟩
      ⟨none, some " ", none, none, none, none, none⟩
      (.ok none) (fun _ _ _ => .ok none) "d" = .json 400 "Missing role" := by
  refine ⟨?_, ?_, ?_⟩
  · exact ((role_normalization
      ⟨none, some " Elektriker ", some "x", none, none, none, none⟩
      ⟨none, none⟩ (fun _ _ _ => .ok none) "d" (.ok none) (.ok none)).1
        " Elektriker " rfl (by decide)).trans (by decide)
  · exact (((role_normalization ⟨none, none, some " KOKK ", none, none, none, none⟩
      ⟨none, none⟩ (fun _ _ _ => .ok none) "d" (.ok none) (.ok none)).2.1
        (by decide) " KOKK " rfl (by decide)).2).trans (by decide)
  · exact ((role_normalization ⟨none, some " ", none, none, none, none, none⟩
      ⟨some "development", none⟩ (fun _ _ _ => .ok none) "d" (.ok none)
        (.ok none)).2.2.2.1 (by decide)).2 (by decide)

/-- C3: an empty or whitespace-only file reference yields an empty
download URL and an empty per-row error with no store call attempted
(the result is independent of the signing function); a reference
beginning with http:// or https:// is passed through verbatim as the
download URL, again with no store call. -/
theorem file_reference_shortcuts (sign sign2 : SignFn) (bucket : String)
    (exp : Int) (pos : String) (row : CampaignApplicationRow) (k : String) :
    (rowCvKey none = "" ∧ ∀ s, jsTrim s = "" → rowCvKey (some s) = "") ∧
    (resolveCvFields sign bucket exp "" = ("", "")) ∧
    ((jsStartsWith k "http://" || jsStartsWith k "https://") = true →
      resolveCvFields sign bucket exp k = (k, "") ∧
      resolveCvFields sign2 bucket exp k = resolveCvFields sign bucket exp k) ∧
    ((row.cv_url = none ∨ ∃ s, row.cv_url = some s ∧ jsTrim s = "") →
      (resolveCampaignRow sign bucket exp pos row).cv_download_url = "" ∧
      (resolveCampaignRow sign bucket exp pos row).cv_error = "" ∧
      resolveCampaignRow sign bucket exp pos row =
        resolveCampaignRow sign2 bucket exp pos row) := by
  refine ⟨⟨rfl, fun s hs => by simp [rowCvKey, hs]⟩, rfl, ?_, ?_⟩
  · intro h
    have hk : k ≠ "" := by
      intro he
      subst he
      exact absurd h (by decide)
    constructor
    · unfold resolveCvFields
      rw [if_neg hk, if_pos h]
    · unfold resolveCvFields
      rw [if_neg hk, if_pos h, if_neg hk, if_pos h]
  · intro hcv
    have hkey : rowCvKey row.cv_url = "" := by
      rcases hcv with hn | ⟨s, hs, hts⟩
      · rw [hn]; rfl
      · rw [hs]; simp [rowCvKey, hts]
    refine ⟨?_, ?_, ?_⟩ <;>
      simp [resolveCampaignRow, hkey, resolveCvFields]

/-- Witness for C3 at a whitespace reference and an https reference. -/
theorem file_reference_shortcuts_witness :
    rowCvKey (some "   ") = "" ∧
    resolveCvFields (fun _ _ _ => .err "x") "candidate-cvs" 100 "" = ("", "") ∧
    resolveCvFields (fun _ _ _ => .err "x") "candidate-cvs" 100
      "https://host/file.pdf" = ("https://host/file.pdf", "") ∧
    (resolveCampaignRow (fun _ _ _ => .err "x") "candidate-cvs" 100 "elektriker"
      ⟨"1", none, none, none, none, none, none, none, some " ", none⟩).cv_download_url =
      "" := by
  have h := file_reference_shortcuts (fun _ _ _ => .err "x") (fun _ _ _ => .ok none)
    "candidate-cvs" 100 "elektriker"
    ⟨"1", none, none, none, none, none, none, none, some " ", none⟩
    "https://host/file.pdf"
  exact ⟨h.1.2 "   " (by decide), h.2.1, (h.2.2.1 (by decide)).1,
    (h.2.2.2 (Or.inr ⟨" ", rfl, by decide⟩)).1⟩

/-- C1: when one retained row's signed-URL request fails and
another's succeeds, the failing row's export has an empty download URL
and the failure message in cv_error, the succeeding row's export
carries the signed URL as download URL with an empty error, a failure
at one key never changes the export of any row with a different key,
and the export still responds 200. -/
theorem row_independence (sign sign2 : SignFn) (bucket : String) (exp : Int)
    (pos : String) (rowA rowB : CampaignApplicationRow) (mA uB : String)
    (env : Env) (q : Query) (data : Option (List CampaignApplicationRow))
    (dateStamp : String)
    (hAkey : rowCvKey rowA.cv_url ≠ "")
    (hAhttp : (jsStartsWith (rowCvKey rowA.cv_url) "http://" ||
      jsStartsWith (rowCvKey rowA.cv_url) "https://") = false)
    (hAerr : sign bucket (rowCvKey rowA.cv_url) exp = .err mA)
    (hBkey : rowCvKey rowB.cv_url ≠ "")
    (hBhttp : (jsStartsWith (rowCvKey rowB.cv_url) "http://" ||
      jsStartsWith (rowCvKey rowB.cv_url) "https://") = false)
    (hBok : sign bucket (rowCvKey rowB.cv_url) exp = .ok (some uB))
    (hagree : ∀ k, k ≠ rowCvKey rowA.cv_url → sign2 bucket k exp = sign bucket k exp)
    (hauth : isAuthorized env q.secret = true)
    (hpos : resolveCampaignPosition q ≠ "") :
    (resolveCampaignRow sign bucket exp pos rowA).cv_download_url = "" ∧
    (resolveCampaignRow sign bucket exp pos rowA).cv_error = mA ∧
    (resolveCampaignRow sign bucket exp pos rowB).cv_download_url = uB ∧
    (resolveCampaignRow sign bucket exp pos rowB).cv_error = "" ∧
    (∀ row : CampaignApplicationRow, rowCvKey row.cv_url ≠ rowCvKey rowA.cv_url →
      resolveCampaignRow sign2 bucket exp pos row =
        resolveCampaignRow sign bucket exp pos row) ∧
    (campaignGET env q (.ok data) sign dateStamp).statusOf = 200 := by
  have hA : resolveCvFields sign bucket exp (rowCvKey rowA.cv_url) = ("", mA) := by
    unfold resolveCvFields
    rw [if_neg hAkey, hAhttp]
    simp only [Bool.false_eq_true, if_false]
    rw [hAerr]
  have hB : resolveCvFields sign bucket exp (rowCvKey rowB.cv_url) = (uB, "") := by
    unfold resolveCvFields
    rw [if_neg hBkey, hBhttp]
    simp only [Bool.false_eq_true, if_false]
    rw [hBok]
    show (jsOrStr (some uB) "", "") = (uB, "")
    by_cases hu : uB = ""
    · subst hu; rfl
    · simp [jsOrStr, hu]
  refine ⟨?_, ?_, ?_, ?_, ?_, ?_⟩
  · simp [resolveCampaignRow, hA]
  · simp [resolveCampaignRow, hA]
  · simp [resolveCampaignRow, hB, jsOrStr]
  · simp [resolveCampaignRow, hB]
  · intro row hrow
    have hsame : resolveCvFields sign2 bucket exp (rowCvKey row.cv_url) =
        resolveCvFields sign bucket exp (rowCvKey row.cv_url) := by
      unfold resolveCvFields
      by_cases hk : rowCvKey row.cv_url = ""
      · rw [if_pos hk, if_pos hk]
      · rw [if_neg hk, if_neg hk]
        cases hcond : (jsStartsWith (rowCvKey row.cv_url) "http://" ||
            jsStartsWith (rowCvKey row.cv_url) "https://") with
        | true => rfl
        | false => rw [hagree _ hrow]
    simp [resolveCampaignRow, hsame]
  · rw [campaignGET_ok env q data sign dateStamp hauth hpos]
    rfl

/-- Witness for C1: a two-row export in which the first row's signing
fails and the second's succeeds. -/
theorem row_independence_witness :
    (resolveCampaignRow
      (fun _ k _ => if k = "a.pdf" then SignOutcome.err "boom"
        else SignOutcome.ok (some "https://signed/u"))
      "candidate-cvs" 31536000 "elektriker"
      ⟨"1", none, none, none, none, none, none, none, some "a.pdf", none⟩).cv_error =
      "boom" ∧
    (resolveCampaignRow
      (fun _ k _ => if k = "a.pdf" then SignOutcome.err "boom"
        else SignOutcome.ok (some "https://signed/u"))
      "candidate-cvs" 31536000 "elektriker"
      ⟨"2", none, none, none, none, none, none, none, some "b.pdf",
        none⟩).cv_download_url = "https://signed/u" ∧
    (campaignGET ⟨some "development", none⟩ ⟨none, none, none, none, none, none, none⟩
      (.ok (some [⟨"1", none, none, none, none, none, none, none, some "a.pdf", none⟩,
        ⟨"2", none, none, none, none, none, none, none, some "b.pdf", none⟩]))
      (fun _ k _ => if k = "a.pdf" then SignOutcome.err "boom"
        else SignOutcome.ok (some "https://signed/u")) "2026-01-01").statusOf = 200 := by
  have h := row_independence
    (fun _ k _ => if k = "a.pdf" then SignOutcome.err "boom"
      else SignOutcome.ok (some "https://signed/u"))
    (fun _ k _ => if k = "a.pdf" then SignOutcome.err "boom"
      else SignOutcome.ok (some "https://signed/u"))
    "candidate-cvs" 31536000 "elektriker"
    ⟨"1", none, none, none, none, none, none, none, some "a.pdf", none⟩
    ⟨"2", none, none, none, none, none, none, none, some "b.pdf", none⟩
    "boom" "https://signed/u"
    ⟨some "development", none⟩ ⟨none, none, none, none, none, none, none⟩
    (some [⟨"1", none, none, none, none, none, none, none, some "a.pdf", none⟩,
      ⟨"2", none, none, none, none, none, none, none, some "b.pdf", none⟩])
    "2026-01-01"
    (by decide) (by decide) (by decide) (by decide) (by decide) (by decide)
    (fun k hk => rfl) (by decide) (by decide)
  exact ⟨h.2.1, h.2.2.1, h.2.2.2.2.2⟩

/-- C4: on a 200 response the total header counts the fetched rows,
the exported header counts the rows surviving the includeMissing
filter, and the CSV body is the newline-join of a line list with
exactly one line per exported row plus the header line, on both
routes. -/
theorem export_counts (env : Env) (q : Query) (sign : SignFn) (dateStamp : String)
    (cdata : Option (List CampaignApplicationRow)) (kdata : Option (List CandidateRow))
    (hauth : isAuthorized env q.secret = true)
    (hpos : resolveCampaignPosition q ≠ "") (hrole : resolveCandidatesRole q ≠ "") :
    (campaignGET env q (.ok cdata) sign dateStamp).statusOf = 200 ∧
    (campaignGET env q (.ok cdata) sign dateStamp).totalFetchedOf =
      (cdata.getD []).length ∧
    (campaignGET env q (.ok cdata) sign dateStamp).totalExportedOf =
      (campaignFiltered q (cdata.getD [])).length ∧
    (campaignGET env q (.ok cdata) sign dateStamp).bodyOf =
      String.intercalate "\n" (campaignCsvLines
        ((campaignFiltered q (cdata.getD [])).map
          (resolveCampaignRow sign (resolveBucket q)
            (parseExpiresInSeconds q.expiresInSeconds q.expiresInDays)
            (resolveCampaignPosition q)))) ∧
    (∀ rows : List CampaignExportRow,
      (campaignCsvLines rows).length = rows.length + 1) ∧
    (candidatesGET env q (.ok kdata) sign dateStamp).statusOf = 200 ∧
    (candidatesGET env q (.ok kdata) sign dateStamp).totalFetchedOf =
      (kdata.getD []).length ∧
    (candidatesGET env q (.ok kdata) sign dateStamp).totalExportedOf =
      (candidateFiltered q (kdata.getD [])).length ∧
    (candidatesGET env q (.ok kdata) sign dateStamp).bodyOf =
      String.intercalate "\n" (candidateCsvLines
        ((candidateFiltered q (kdata.getD [])).map
          (resolveCandidateRow sign (resolveBucket q)
            (parseExpiresInSeconds q.expiresInSeconds q.expiresInDays)
            (resolveCandidatesRole q)))) ∧
    (∀ rows : List CandidateExportRow,
      (candidateCsvLines rows).length = rows.length + 1) := by
  rw [campaignGET_ok env q cdata sign dateStamp hauth hpos,
      candidatesGET_ok env q kdata sign dateStamp hauth hrole]
  refine ⟨rfl, rfl, ?_, rfl, ?_, rfl, rfl, ?_, rfl, ?_⟩
  · simp [GetResponse.totalExportedOf]
  · intro rows; simp [campaignCsvLines]
  · simp [GetResponse.totalExportedOf]
  · intro rows; simp [candidateCsvLines]

/-- Witness for C4: two fetched campaign rows, one with a blank
reference, includeMissing unset: status 200, total 2, exported 1, and
the CSV line list has exactly two lines (header plus one data row). -/
theorem export_counts_witness :
    (campaignGET ⟨some "development", none⟩ ⟨none, none, none, none, none, none, none⟩
      (.ok (some [⟨"1", none, none, none, none, none, none, none, some "abc.pdf", none⟩,
        ⟨"2", none, none, none, none, none, none, none, some "", none⟩]))
      (fun _ _ _ => SignOutcome.ok (some "https://s")) "2026-01-01").statusOf = 200 ∧
    (campaignGET ⟨some "development", none⟩ ⟨none, none, none, none, none, none, none⟩
      (.ok (some [⟨"1", none, none, none, none, none, none, none, some "abc.pdf", none⟩,
        ⟨"2", none, none, none, none, none, none, none, some "", none⟩]))
      (fun _ _ _ => SignOutcome.ok (some "https://s"))
      "2026-01-01").totalFetchedOf = 2 ∧
    (campaignGET ⟨some "development", none⟩ ⟨none, none, none, none, none, none, none⟩
      (.ok (some [⟨"1", none, none, none, none, none, none, none, some "abc.pdf", none⟩,
        ⟨"2", none, none, none, none, none, none, none, some "", none⟩]))
      (fun _ _ _ => SignOutcome.ok (some "https://s"))
      "2026-01-01").totalExportedOf = 1 ∧
    (campaignCsvLines
      ((campaignFiltered ⟨none, none, none, none, none, none, none⟩
        [⟨"1", none, none, none, none, none, none, none, some "abc.pdf", none⟩,
         ⟨"2", none, none, none, none, none, none, none, some "", none⟩]).map
        (resolveCampaignRow (fun _ _ _ => SignOutcome.ok (some "https://s"))
          (resolveBucket ⟨none, none, none, none, none, none, none⟩)
          (parseExpiresInSeconds none none)
          (resolveCampaignPosition
            ⟨none, none, none, none, none, none, none⟩)))).length = 2 := by
  have h := export_counts ⟨some "development", none⟩
    ⟨none, none, none, none, none, none, none⟩
    (fun _ _ _ => SignOutcome.ok (some "https://s")) "2026-01-01"
    (some [⟨"1", none, none, none, none, none, none, none, some "abc.pdf", none⟩,
      ⟨"2", none, none, none, none, none, none, none, some "", none⟩])
    none (by decide) (by decide) (by decide)
  exact ⟨h.1, h.2.1.trans (by decide), h.2.2.1.trans (by decide),
    (h.2.2.2.2.1 _).trans (by decide)⟩

/-- C9 (amended): base-10 Number.parseInt accepts a string whose
leading characters form a digit run followed by other text and uses
the integer prefix; any string parsing to a positive finite integer is
resolved by the seconds rule; strings with no leading integer, a zero
or negative prefix, or a prefix whose value rounds to an infinite
double fall through to the days rule. -/
theorem parseInt_prefix_acceptance (dp : Option String) (pre post : List Char)
    (hne : pre ≠ [])
    (hdig : ∀ c ∈ pre, c.isDigit = true)
    (hpost : Option.all (fun c => !c.isDigit) post.head? = true)
    (hpos : 0 < digitsToNat pre)
    (hfin : jsFinite ((digitsToNat pre : Nat) : Int) = true) :
    jsParseInt (String.mk (pre ++ post)) = some ((digitsToNat pre : Nat) : Int) ∧
    parseExpiresInSeconds (some (String.mk (pre ++ post))) dp =
      min ((digitsToNat pre : Nat) : Int) MAX_EXPIRES_IN_SECONDS ∧
    (∀ s n, jsParseInt s = some n → 0 < n → jsFinite n = true →
      parseExpiresInSeconds (some s) dp = min n MAX_EXPIRES_IN_SECONDS) ∧
    (∀ s, (∀ n, jsParseInt s = some n → n ≤ 0 ∨ jsFinite n = false) →
      parseExpiresInSeconds (some s) dp = parseExpiresInSeconds none dp) := by
  have hgen : ∀ s n, jsParseInt s = some n → 0 < n → jsFinite n = true →
      parseExpiresInSeconds (some s) dp = min n MAX_EXPIRES_IN_SECONDS := by
    intro s n hs hn hf
    have hse : s ≠ "" := by
      intro he
      subst he
      rw [show jsParseInt "" = none from by decide] at hs
      cases hs
    have hacc : acceptsPositiveInt (some s) = some n := by
      simp only [acceptsPositiveInt, if_neg hse, hs]
      simp [hf, hn]
    rw [parseExpires_eq_accepts (some s) dp, hacc]
  have hparse : jsParseInt (String.mk (pre ++ post)) =
      some ((digitsToNat pre : Nat) : Int) := by
    obtain ⟨c, pre2, rfl⟩ : ∃ c pre2, pre = c :: pre2 := by
      cases pre with
      | nil => exact absurd rfl hne
      | cons c t => exact ⟨c, t, rfl⟩
    have hc := hdig c (by simp)
    have hcw : c.isWhitespace = false := digit_not_whitespace c hc
    show jsParseInt (String.mk ((c :: pre2) ++ post)) = _
    unfold jsParseInt
    simp only [List.cons_append]
    rw [List.dropWhile_cons, hcw]
    simp only [Bool.false_eq_true, if_false]
    split
    · next rest heq =>
        injection heq with h1 h2
        subst h1
        exact absurd hc (by decide)
    · next rest heq =>
        injection heq with h1 h2
        subst h1
        exact absurd hc (by decide)
    · next hne1 hne2 =>
        rw [show c :: (pre2 ++ post) = (c :: pre2) ++ post from rfl,
          takeWhile_block Char.isDigit (c :: pre2) post hdig hpost]
        simp [List.isEmpty_cons]
  refine ⟨hparse, hgen _ _ hparse (by exact_mod_cast hpos) hfin, hgen, ?_⟩
  intro s hbad
  have hacc : acceptsPositiveInt (some s) = none := by
    by_cases hse : s = ""
    · subst hse; rfl
    · simp only [acceptsPositiveInt, if_neg hse]
      cases hp : jsParseInt s with
      | none => rfl
      | some n =>
          rcases hbad n hp with hle | hf
          · have hno : ¬(jsFinite n = true ∧ 0 < n) :=
              fun hh => absurd hh.2 (not_lt.mpr hle)
            show (if jsFinite n = true ∧ 0 < n then some n else none) = none
            rw [if_neg hno]
          · have hno : ¬(jsFinite n = true ∧ 0 < n) := by
              intro hh
              rw [hf] at hh
              exact absurd hh.1 (by decide)
            show (if jsFinite n = true ∧ 0 < n then some n else none) = none
            rw [if_neg hno]
  rw [parseExpires_eq_accepts (some s) dp, hacc, parseExpires_eq_accepts none dp]
  rfl

/-- Counterexample for C9 as frozen: a string of 400 nines has a
positive leading integer prefix, yet the resolver falls through to the
days rule (yielding 172800, not the capped seconds value), because the
parsed value rounds to an infinite double. -/
theorem parseInt_overflow_counterexample :
    jsParseInt (String.mk (List.replicate 400 (Char.ofNat 57))) =
      some (((10 : Nat) ^ 400 - 1 : Nat) : Int) ∧
    0 < (((10 : Nat) ^ 400 - 1 : Nat) : Int) ∧
    parseExpiresInSeconds (some (String.mk (List.replicate 400 (Char.ofNat 57))))
      (some "2") = 172800 ∧
    parseExpiresInSeconds (some (String.mk (List.replicate 400 (Char.ofNat 57))))
      (some "2") ≠
      min (((10 : Nat) ^ 400 - 1 : Nat) : Int) MAX_EXPIRES_IN_SECONDS := by
  exact ⟨by decide, by decide, by decide, by decide⟩

/-- Witness for C9 at the claim's own examples 100.5 and 100abc. -/
theorem parseInt_prefix_acceptance_witness :
    parseExpiresInSeconds (some (String.mk ([Char.ofNat 49, Char.ofNat 48,
      Char.ofNat 48] ++ [Char.ofNat 46, Char.ofNat 53]))) none = 100 ∧
    parseExpiresInSeconds (some (String.mk ([Char.ofNat 49, Char.ofNat 48,
      Char.ofNat 48] ++ [Char.ofNat 97, Char.ofNat 98, Char.ofNat 99]))) none =
      100 := by
  refine ⟨((parseInt_prefix_acceptance none [Char.ofNat 49, Char.ofNat 48,
      Char.ofNat 48] [Char.ofNat 46, Char.ofNat 53] (by decide) (by decide)
      (by decide) (by decide) (by decide)).2.1).trans (by decide),
    ((parseInt_prefix_acceptance none [Char.ofNat 49, Char.ofNat 48, Char.ofNat 48]
      [Char.ofNat 97, Char.ofNat 98, Char.ofNat 99] (by decide) (by decide)
      (by decide) (by decide) (by decide)).2.1).trans (by decide)⟩

end BlueCrew
